import Mathlib

/-!
Verification development for the rstblog static-site generator
(`worker.py`, `app.py`).  The Python source is shallowly embedded:
pure fragments become Lean functions, raised exceptions become
`Except`, and class-level mutable state (the Pygments formatter
configuration) becomes explicit state passing.
-/

namespace RstBlog

/-! ## Paths

Model of the POSIX `pathlib.Path` values used by `worker.py`.  A path is
an absoluteness flag plus a list of components; `parsePath` mirrors how
`PurePosixPath` splits a string (leading `/` makes it absolute, empty
and `.` components are dropped). -/

structure PyPath where
  absolute : Bool
  components : List String
deriving DecidableEq, Repr

/-- Component split of a POSIX path string on `/`, at character level
(as `PurePosixPath` does). -/
def splitSlash : List Char → List (List Char)
  | [] => [[]]
  | c :: cs =>
      let r := splitSlash cs
      if c = '/' then [] :: r
      else
        match r with
        | [] => [[c]]
        | g :: gs => (c :: g) :: gs

/-- `Path(s)` for a POSIX path string: absolute iff the string starts
with `/`; components are the non-empty, non-`.` segments. -/
def parsePath (s : String) : PyPath :=
  let segs := (splitSlash s.data).map (fun cs => String.mk cs)
  { absolute :=
      match s.data with
      | [] => false
      | c :: _ => c = '/'
    components := segs.filter (fun c => c ≠ "" && c ≠ ".") }

/-- `Path.is_absolute()`. -/
def PyPath.is_absolute (p : PyPath) : Bool := p.absolute

/-- `p.relative_to(Path("/"))` for an absolute `p`: the same components
as a relative path. -/
def PyPath.relativeToRoot (p : PyPath) : PyPath :=
  { absolute := false, components := p.components }

/-- `p / q` (path join with a relative right operand). -/
def PyPath.join (p q : PyPath) : PyPath :=
  { absolute := p.absolute, components := p.components ++ q.components }

/-! ## Dates

`datetime` values produced by the settings directive always come from a
date-only format, so a calendar date models them; ordering is
lexicographic on (year, month, day), matching `datetime` comparison for
midnight timestamps. -/

structure Date where
  year : Nat
  month : Nat
  day : Nat
deriving DecidableEq, Repr

/-- `datetime` comparison (`<=`) restricted to the dates the pipeline
produces. -/
def dateLe (a b : Date) : Bool :=
  a.year < b.year ||
    (a.year == b.year &&
      (a.month < b.month || (a.month == b.month && a.day ≤ b.day)))

/-- Zero-pad a numeral to two digits (`strftime` `%m` / `%d`). -/
def pad2 (n : Nat) : String :=
  if n < 10 then "0" ++ toString n else toString n

/-- Zero-pad a numeral to four digits (`strftime` `%Y`). -/
def pad4 (n : Nat) : String :=
  if n < 10 then "000" ++ toString n
  else if n < 100 then "00" ++ toString n
  else if n < 1000 then "0" ++ toString n
  else toString n

/-- `date.strftime("%Y/%m/%d")`. -/
def Date.strftimeYMD (d : Date) : String :=
  pad4 d.year ++ "/" ++ pad2 d.month ++ "/" ++ pad2 d.day

/-- `date.strftime("%Y/%m")` (the month-bucket key in `RstBlog.render`). -/
def Date.strftimeYM (d : Date) : String :=
  pad4 d.year ++ "/" ++ pad2 d.month

/-- `strftime` `%b`: abbreviated month name. -/
def monthAbbrev (m : Nat) : String :=
  match m with
  | 1 => "Jan" | 2 => "Feb" | 3 => "Mar" | 4 => "Apr"
  | 5 => "May" | 6 => "Jun" | 7 => "Jul" | 8 => "Aug"
  | 9 => "Sep" | 10 => "Oct" | 11 => "Nov" | 12 => "Dec"
  | _ => ""

/-- `date.strftime("%b %Y")` (the display name of a month bucket). -/
def Date.strftimeBY (d : Date) : String :=
  monthAbbrev d.month ++ " " ++ pad4 d.year

/-! ## Compiled documents

A `DocumentRenderable` as used by `RstBlog.render`: for ordering,
grouping and pagination in the assembler only the date and identity of a
document matter, so the remaining metadata is condensed into an
identifier. -/

structure PostDoc where
  id : Nat
  date : Date
deriving DecidableEq, Repr

/-- `RstBlog.render` lines 417–419:
`self.posts.sort(key=lambda d: d.doc_settings["date"])` followed by
`self.posts.reverse()`.  Python `list.sort` is a stable ascending sort,
modelled by `List.mergeSort`. -/
def sortPosts (posts : List PostDoc) : List PostDoc :=
  (posts.mergeSort (fun a b => dateLe a.date b.date)).reverse

/-! ## The rstblog-settings directive (worker.py 111–151) -/

/-- `RstBlogSettingsDirective.taglist`: comma-separated, trimmed,
empty entries dropped; a missing or whitespace-only argument gives the
empty list. -/
def taglist : Option String → List String
  | none => []
  | some a =>
      if a.trim = "" then []
      else ((a.splitOn ",").map String.trim).filter (fun x => x ≠ "")

/-- Gregorian leap-year rule used by `datetime` validation. -/
def isLeap (y : Nat) : Bool :=
  (y % 4 == 0 && y % 100 != 0) || y % 400 == 0

/-- Days in a month, as validated by `datetime.strptime`. -/
def daysInMonth (y m : Nat) : Nat :=
  match m with
  | 2 => if isLeap y then 29 else 28
  | 4 => 30 | 6 => 30 | 9 => 30 | 11 => 30
  | _ => 31

/-- `datetime` construction: the calendar validity check performed by
`strptime` after the fields are read. -/
def mkValidDate (y m d : Nat) : Option Date :=
  if 1 ≤ y && y ≤ 9999 && 1 ≤ m && m ≤ 12 && 1 ≤ d && d ≤ daysInMonth y m
  then some ⟨y, m, d⟩
  else none

/-- `strptime(s, "%Y/%m/%d")`: three slash-separated numeric fields of
bounded width, then calendar validation. -/
def parseYMD (s : String) : Option Date :=
  match s.splitOn "/" with
  | [ys, ms, ds] => do
      let y ← ys.toNat?
      let m ← ms.toNat?
      let d ← ds.toNat?
      if ys.length ≤ 4 && ms.length ≤ 2 && ds.length ≤ 2 then
        mkValidDate y m d
      else none
  | _ => none

/-- Full month names for the `%B` field (matched case-insensitively). -/
def monthFullNames : List String :=
  ["january", "february", "march", "april", "may", "june", "july",
   "august", "september", "october", "november", "december"]

/-- Abbreviated month names for the `%b` field. -/
def monthAbbrevNames : List String :=
  ["jan", "feb", "mar", "apr", "may", "jun", "jul", "aug", "sep",
   "oct", "nov", "dec"]

/-- Month-name lookup (1-based) in a name table. -/
def monthFromName (names : List String) (w : String) : Option Nat :=
  match names.findIdx? (fun n => n = w.toLower) with
  | some i => some (i + 1)
  | none => none

/-- `strptime(s, "%d %B %Y")` and its `%d %b %Y` variant, selected by
the name table: day, month name, year separated by spaces, then
calendar validation. -/
def parseDMonY (names : List String) (s : String) : Option Date :=
  match s.splitOn " " with
  | [ds, ws, ys] => do
      let d ← ds.toNat?
      let m ← monthFromName names ws
      let y ← ys.toNat?
      if ds.length ≤ 2 && ys.length ≤ 4 then mkValidDate y m d else none
  | _ => none

/-- `RstBlogSettingsDirective.date` (worker.py 123–133): a missing
argument is an error, otherwise the formats `%Y/%m/%d`, `%d %B %Y`,
`%d %b %Y` are tried in order and the first match wins; no match is an
error naming the offending string. -/
def date_conv : Option String → Except String Date
  | none => Except.error "argument required but not supplied"
  | some a =>
      match parseYMD a with
      | some d => Except.ok d
      | none =>
          match parseDMonY monthFullNames a with
          | some d => Except.ok d
          | none =>
              match parseDMonY monthAbbrevNames a with
              | some d => Except.ok d
              | none => Except.error ("Unrecognized date format: " ++ a)

/-- `docutils.parsers.rst.directives.unchanged_required`: the raw
value; a missing argument is an error. -/
def unchanged_required : Option String → Except String String
  | none => Except.error "argument required but not supplied"
  | some a => Except.ok a

/-- `docutils.parsers.rst.directives.uri`: required; its whitespace
normalisation is elided, as no claim depends on it. -/
def uri_conv : Option String → Except String String
  | none => Except.error "argument required but not supplied"
  | some a => Except.ok a

/-- The options supplied in a `rstblog-settings` directive, `none` for
an omitted option, raw argument text otherwise. -/
structure SettingsOptions where
  title : Option String
  date : Option String
  url : Option String
  tags : Option String
deriving DecidableEq, Repr

/-- The resolved `rstblog_settings` node attributes. -/
structure SettingsNode where
  title : String
  date : Date
  url : String
  tags : List String
deriving DecidableEq, Repr

/-- `RstBlogSettingsDirective.run` (worker.py 144–151): every option of
`option_spec` is taken from the supplied options when present, and
otherwise its converter is applied to `None`; a converter exception
aborts the directive.  Supplied options reach `self.options` already
converted by the same converters, so conversion of supplied and missing
options is folded into one pass in `option_spec` order (title, date,
url, tags). -/
def settingsRun (o : SettingsOptions) : Except String SettingsNode := do
  let t ← unchanged_required o.title
  let d ← date_conv o.date
  let u ← uri_conv o.url
  let tg := taglist o.tags
  return ⟨t, d, u, tg⟩

/-! ## Translator (worker.py 176–219)

The node trees walked by `BlogTranslator` are modelled by the three
node shapes the custom translator distinguishes: ordinary content
(emitting its HTML into `body`), image nodes, and `rstblog_break`
marker nodes. -/

inductive Node where
  | content (html : String)
  | image (uri : String) (width : Option String)
  | brk
deriving DecidableEq, Repr

/-- The mutable translator fields `self.body` (inherited),
`self.rstblog_content` and `self._rstblog_preview`. -/
structure TranslatorState where
  body : List String
  rstblog_content : List String
  preview : Option String
deriving DecidableEq, Repr

/-- The regex `^[0-9.]+$` in `visit_image`. -/
def isNumericWidth (w : String) : Bool :=
  w ≠ "" && w.toList.all (fun c => c.isDigit || c == '.')

/-- Width munging in `visit_image`: a unitless numeric width gets `px`
appended, and the resulting width is wrapped as `min(w, 100%)`. -/
def mungeWidth : Option String → Option String
  | none => none
  | some w =>
      let w := if isNumericWidth w then w ++ "px" else w
      some ("min(" ++ w ++ ", 100%)")

/-- Stand-in for the HTML appended to `body` by the base-class
`super().visit_image(node)` rendering. -/
def imageHTML (uri : String) (width : Option String) : String :=
  "<img src=" ++ uri ++
    (match width with
     | some w => " width=" ++ w
     | none => "") ++ ">"

/-- One visitor step of `BlogTranslator`: content emits its HTML;
`visit_image` munges the width, emits the image HTML, then raises on an
absolute URI and otherwise records the URI in `rstblog_content`;
`visit_rstblog_break` snapshots the joined body into
`_rstblog_preview`. -/
def visitNode (st : TranslatorState) : Node → Except String TranslatorState
  | Node.content s => Except.ok { st with body := st.body ++ [s] }
  | Node.image uri width =>
      let st := { st with body := st.body ++ [imageHTML uri (mungeWidth width)] }
      if (parsePath uri).is_absolute then
        Except.error ("Image " ++ uri ++
          " references an absolute path to an image, this is not allowed")
      else
        Except.ok { st with rstblog_content := st.rstblog_content ++ [uri] }
  | Node.brk => Except.ok { st with preview := some (String.join st.body) }

/-- Fresh translator state (`BlogTranslator.__init__`). -/
def initState : TranslatorState := ⟨[], [], none⟩

/-- The document walk from a given state: visitor steps in document
order, the first raised exception aborting the walk. -/
def runVisit : TranslatorState → List Node → Except String TranslatorState
  | st, [] => Except.ok st
  | st, n :: ns =>
      match visitNode st n with
      | Except.error e => Except.error e
      | Except.ok st1 => runVisit st1 ns

/-- The whole document walk, from the fresh state. -/
def translate (nodes : List Node) : Except String TranslatorState :=
  runVisit initState nodes

/-- The `rstblog_preview` property (worker.py 188–190): the recorded
preview when truthy (set and non-empty), otherwise the whole joined
body. -/
def previewHTML (st : TranslatorState) : String :=
  match st.preview with
  | some p => if p = "" then String.join st.body else p
  | none => String.join st.body

/-- The HTML one node contributes to `body`. -/
def nodeHTML : Node → String
  | Node.content s => s
  | Node.image uri width => imageHTML uri (mungeWidth width)
  | Node.brk => ""

/-- The HTML a whole tree contributes to `body`. -/
def nodesHTML (ns : List Node) : String :=
  String.join (ns.map nodeHTML)

/-- Modelled from the spec wording for comparison: the preview is the
HTML accumulated up to the FIRST break directive when one exists,
otherwise the whole body. -/
def specFirstBreakPreview (ns : List Node) : String :=
  if Node.brk ∈ ns then
    nodesHTML (ns.takeWhile (fun n => n ≠ Node.brk))
  else nodesHTML ns

/-- The prefix of the tree strictly before the LAST break directive,
`none` when the tree holds no break. -/
def beforeLastBreak : List Node → Option (List Node)
  | [] => none
  | n :: rest =>
      match beforeLastBreak rest with
      | some pre => some (n :: pre)
      | none => if n = Node.brk then some [] else none

/-! ## Document compilers (worker.py 363–392) -/

/-- Template names configured under `[tool.rstblog.templates]`. -/
structure Templates where
  page : String
  post : String
  index : String
deriving DecidableEq, Repr

/-- `PageCompiler.get_template` (worker.py 364–365): looks up
`templates["page"]`. -/
def pageGetTemplate (t : Templates) : String := t.page

/-- `PostCompiler.get_template` (worker.py 377–378): also looks up
`templates["page"]`. -/
def postGetTemplate (t : Templates) : String := t.page

/-- The two compiler variants. -/
inductive CompilerKind where
  | page
  | post
deriving DecidableEq, Repr

/-- The template resolved at line 343 of `Compiler.compile` and
captured by the deferred-render closure, dispatched on the compiler
variant. -/
def compileTemplate (k : CompilerKind) (t : Templates) : String :=
  match k with
  | CompilerKind.page => pageGetTemplate t
  | CompilerKind.post => postGetTemplate t

/-- `PageCompiler.get_url` (worker.py 367–373): a relative `url`
raises, an absolute one is returned relative to `/`. -/
def pageGetUrl (src : String) (urlStr : String) : Except String PyPath :=
  let url := parsePath urlStr
  if !url.is_absolute then
    Except.error ("Document " ++ src ++ " needs an absolute path, \"" ++
      urlStr ++ "\" supplied")
  else
    Except.ok url.relativeToRoot

/-- `PostCompiler.get_url` (worker.py 380–392): the date is formatted
as `YYYY/MM/DD`; a relative `url` is prefixed by the date path, an
absolute one is used without modification, made relative to `/`. -/
def postGetUrl (d : Date) (urlStr : String) : Except String PyPath :=
  let url := parsePath urlStr
  let datePath := parsePath d.strftimeYMD
  if !url.is_absolute then
    Except.ok (datePath.join url)
  else
    Except.ok url.relativeToRoot

/-- `Compiler.compile` lines 328–332: the document directory is
`out_dir / url`. -/
def docDir (out_dir : PyPath) (url : PyPath) : PyPath := out_dir.join url

/-! ## Site assembly (`RstBlog.render`, worker.py 413–473) -/

/-- The Python chunking `[l[i:i+step] for i in range(0, len(l), step)]`
(worker.py 421 and 444).  For `step = 0` Python raises inside `range`;
the model returns no chunks, and theorems touching pagination assume
`0 < step`. -/
def paginate {α : Type} (step : Nat) : List α → List (List α)
  | [] => []
  | x :: xs =>
      if _h : step = 0 then []
      else ((x :: xs).take step) :: paginate step ((x :: xs).drop step)
termination_by l => l.length
decreasing_by
  simp only [List.length_drop, List.length_cons]
  omega

/-- `itertools.groupby(l, key)` (worker.py 427): maximal contiguous
runs of equal key, each paired with the key of the run. -/
def groupRuns (key : PostDoc → String) : List PostDoc → List (String × List PostDoc)
  | [] => []
  | x :: xs =>
      match groupRuns key xs with
      | [] => [(key x, [x])]
      | (k, g) :: rest =>
          if key x = k then (key x, x :: g) :: rest
          else (key x, [x]) :: (k, g) :: rest

/-- The grouping key of `RstBlog.render` line 428:
`p.doc_settings["date"].strftime("%Y/%m")`. -/
def monthKey (p : PostDoc) : String := p.date.strftimeYM

/-- `posts_by_month` (worker.py 425–430): contiguous same-month runs of
the already-sorted post list, keyed by `YYYY/MM` (the `strptime` of the
key back into a datetime is modelled where the display name is
needed). -/
def postsByMonth (sorted : List PostDoc) : List (String × List PostDoc) :=
  groupRuns monthKey sorted

/-- The arguments passed to `index_template.render` for one index
page. -/
structure IndexRender where
  index_name : String
  index_posts : List PostDoc
  index_number : Nat
  index_count : Nat
deriving DecidableEq, Repr

/-- Month-bucket index rendering (worker.py 443–460) for one bucket of
`posts_by_month` whose key parses back to year `y` and month `mo`: the
bucket is chunked by `step`; chunk `i` is written to `<url>/index.html`
for `i = 0` and `<url>/index{i}.html` otherwise; every render receives
`index_posts = posts`, the WHOLE bucket — the chunk bound to the loop
variable `page` is never used — together with `index_number = 0`,
`index_count = 1` and the name `Posts <Mon YYYY>, Page <i+1>`. -/
def monthIndexPages (step : Nat) (y mo : Nat) (posts : List PostDoc) :
    List (String × IndexRender) :=
  let url := Date.strftimeYM ⟨y, mo, 1⟩
  let month := Date.strftimeBY ⟨y, mo, 1⟩
  (paginate step posts).enum.map fun p =>
    ((if p.1 = 0 then url ++ "/index" else url ++ "/index" ++ toString p.1)
        ++ ".html",
     { index_name := "Posts " ++ month ++ ", Page " ++ toString (p.1 + 1)
       index_posts := posts
       index_number := 0
       index_count := 1 })

/-- Global index rendering (worker.py 462–473): the sorted posts are
chunked by `step`; chunk `i` is written to `index.html` for `i = 0` and
`index{i}.html` otherwise, with `index_posts` the chunk itself,
`index_number = i`, `index_count` the total number of chunks and the
name `Page <i+1>`. -/
def globalIndexPages (step : Nat) (posts : List PostDoc) :
    List (String × IndexRender) :=
  let paginated := paginate step posts
  paginated.enum.map fun p =>
    ((if p.1 = 0 then "index" else "index" ++ toString p.1) ++ ".html",
     { index_name := "Page " ++ toString (p.1 + 1)
       index_posts := p.2
       index_number := p.1
       index_count := paginated.length })

/-! ## The refresh endpoint (app.py 21–60) -/

/-- An HTTP request as seen by the Flask handler: the raw body and the
optional `X-Hub-Signature-256` header. -/
structure HttpRequest where
  body : String
  sigHeader : Option String
deriving DecidableEq, Repr

/-- A response status and message. -/
structure HttpResponse where
  status : Nat
  message : String
deriving DecidableEq, Repr

/-- A task enqueued on the Celery queue by the web app. -/
inductive QueuedTask where
  | update (branch : Option String)
deriving DecidableEq, Repr

/-- `validate_hmac` (app.py 21–38), parametric in the HMAC-SHA256
primitive `mac secret message` (external crypto, supplied as a
function): a missing header answers 403 immediately; a present header
different from `"sha256=" ++ mac secret body` answers 401
(`hmac.compare_digest` is constant-time string equality); only a
matching header reaches the wrapped handler. -/
def validate_hmac (mac : String → String → String) (secret : String)
    (f : HttpRequest → HttpResponse × List QueuedTask)
    (req : HttpRequest) : HttpResponse × List QueuedTask :=
  match req.sigHeader with
  | none => (⟨403, "X-Hub-Signature-256 header missing"⟩, [])
  | some sig =>
      let expected := "sha256=" ++ mac secret req.body
      if expected = sig then f req
      else (⟨401, "HMAC validation failed"⟩, [])

/-- `_refresh` as invoked from `request_refresh` (app.py 40–45,
56–60): enqueues `worker.update.delay(branch=None)` and answers 200
with an empty object. -/
def refreshHandler (_req : HttpRequest) : HttpResponse × List QueuedTask :=
  (⟨200, ""⟩, [QueuedTask.update none])

/-- The `/refresh` endpoint: `request_refresh` wrapped by
`validate_hmac`. -/
def requestRefresh (mac : String → String → String) (secret : String) :
    HttpRequest → HttpResponse × List QueuedTask :=
  validate_hmac mac secret refreshHandler

/-! ## The Pygments code-block directive (worker.py 42–101) -/

/-- The class attribute `PygmentsDirective._formatter_args`. -/
structure FormatterArgs where
  style : String
  linenos : String
deriving DecidableEq, Repr

/-- An `HtmlFormatter` as constructed by `get_formatter`. -/
structure Formatter where
  style : String
  linenos : String
  cssstyles : String
deriving DecidableEq, Repr

/-- The `[tool.rstblog.pygments]` settings table. -/
structure PygmentsSettings where
  style : String
  csspath : String
deriving DecidableEq, Repr

/-- The class-level configuration state; `none` models the unconfigured
`_formatter_args = None`. -/
abbrev PygState := Option FormatterArgs

/-- `PygmentsDirective.get_formatter` (worker.py 74–80): raises when
the class is unconfigured, otherwise copies the configured arguments
and overlays the keyword arguments (here: `cssstyles`). -/
def get_formatter (st : PygState) (cssstyles : String) :
    Except String Formatter :=
  match st with
  | none => Except.error "PygmentsDirective is not configured"
  | some a => Except.ok ⟨a.style, a.linenos, cssstyles⟩

/-- `PygmentsDirective.configure` (worker.py 57–72): sets
`_formatter_args` from the content settings, runs the body, and the
`finally` clause resets the state to `None` no matter how the body
exits (normally or with an exception) and no matter what the body did
to the state. -/
def configure {ε α : Type} (ps : PygmentsSettings)
    (body : PygState → Except ε α × PygState) (_st : PygState) :
    Except ε α × PygState :=
  let st1 : PygState := some ⟨ps.style, "inline"⟩
  let r := body st1
  (r.1, none)

/-- Stand-in for the external `pygments.highlight(code, lexer,
formatter)` primitive. -/
def highlight (code lexer : String) (fmt : Formatter) : String :=
  "<div class=highlight style=" ++ fmt.cssstyles ++ " lang=" ++ lexer ++
    ">" ++ code ++ "</div>"

/-- `PygmentsDirective.run` (worker.py 82–101), parametric in the set
of lexer names `get_lexer_by_name` accepts: computes `cssstyles` from
the `height-limit` flag, requests the formatter — raising when the
directive is unconfigured — picks the first argument as the language,
defaulting to `text`, falls back to the `text` lexer for an unknown
language instead of raising, and yields the highlighted block as raw
HTML. -/
def pygmentsRun (knownLexers : List String) (st : PygState)
    (heightLimit : Bool) (arguments : List String)
    (content : List String) : Except String String := do
  let cssstyles :=
    if heightLimit then "max-height: 200px; overflow-y: scroll;" else ""
  let fmt ← get_formatter st cssstyles
  let language := arguments.headD "text"
  let lexer := if language ∈ knownLexers then language else "text"
  return highlight (String.intercalate "\n" content) lexer fmt

/-! ## Helper lemmas -/

theorem dateLe_refl (a : Date) : dateLe a a := by
  simp [dateLe]

theorem dateLe_trans (a b c : Date) (hab : dateLe a b) (hbc : dateLe b c) :
    dateLe a c := by
  simp only [dateLe, Bool.or_eq_true, Bool.and_eq_true, decide_eq_true_eq,
    beq_iff_eq, Nat.le_iff_lt_or_eq] at *
  omega

theorem dateLe_total (a b : Date) : dateLe a b || dateLe b a := by
  simp only [dateLe, Bool.or_eq_true, Bool.and_eq_true, decide_eq_true_eq,
    beq_iff_eq, Nat.le_iff_lt_or_eq]
  omega

theorem dateLe_of_eq (a b : Date) (h : a = b) : dateLe a b := by
  subst h; exact dateLe_refl a

theorem foldl_append_string (l : List String) (init : String) :
    l.foldl (fun r s => r ++ s) init = init ++ String.join l := by
  induction l generalizing init with
  | nil => simp [String.join]
  | cons a l ih =>
      simp only [String.join, List.foldl_cons]
      rw [ih (init ++ a), ih ("" ++ a), String.empty_append,
        String.append_assoc]

theorem join_cons (a : String) (l : List String) :
    String.join (a :: l) = a ++ String.join l := by
  simp only [String.join, List.foldl_cons]
  rw [foldl_append_string l ("" ++ a), String.empty_append]
  rfl

theorem join_append_one (l : List String) (s : String) :
    String.join (l ++ [s]) = String.join l ++ s := by
  simp only [String.join, List.foldl_append, List.foldl_cons, List.foldl_nil]

theorem nodesHTML_nil : nodesHTML [] = "" := rfl

theorem nodesHTML_cons (n : Node) (ns : List Node) :
    nodesHTML (n :: ns) = nodeHTML n ++ nodesHTML ns := by
  simp only [nodesHTML, List.map_cons]
  exact join_cons _ _

/-! ## C1: post ordering in the assembler -/

/-- C1 counterexample: two posts sharing a date are emitted by the
render sort in REVERSED discovery order — the stable ascending sort
followed by `reverse()` flips every tie — refuting the claim that equal
dates keep their original discovery order. -/
theorem C1_counterexample :
    sortPosts [⟨1, ⟨2024, 1, 1⟩⟩, ⟨2, ⟨2024, 1, 1⟩⟩] =
        [⟨2, ⟨2024, 1, 1⟩⟩, ⟨1, ⟨2024, 1, 1⟩⟩] ∧
      (PostDoc.mk 1 ⟨2024, 1, 1⟩).date = (PostDoc.mk 2 ⟨2024, 1, 1⟩).date ∧
      sortPosts [⟨1, ⟨2024, 1, 1⟩⟩, ⟨2, ⟨2024, 1, 1⟩⟩] ≠
        [⟨1, ⟨2024, 1, 1⟩⟩, ⟨2, ⟨2024, 1, 1⟩⟩] := by
  have h : sortPosts [⟨1, ⟨2024, 1, 1⟩⟩, ⟨2, ⟨2024, 1, 1⟩⟩] =
      [⟨2, ⟨2024, 1, 1⟩⟩, ⟨1, ⟨2024, 1, 1⟩⟩] := by
    simp [sortPosts, List.mergeSort, List.splitInTwo, List.splitAt,
      List.splitAt.go, List.merge, dateLe]
  exact ⟨h, rfl, by rw [h]; decide⟩

/-- C1 (amended): the render step orders the posts descending by date
(the output is a permutation of the input, pairwise ordered by the
reversed date order), and any two posts with equal dates appear in
REVERSED discovery order: every sublist of the input whose members all
share one date reappears reversed as a sublist of the output. -/
theorem C1_sort_descending_ties_reversed (posts : List PostDoc) :
    (sortPosts posts).Perm posts ∧
    (sortPosts posts).Pairwise (fun a b => dateLe b.date a.date) ∧
    ∀ c : List PostDoc, c.Sublist posts →
      (∀ a ∈ c, ∀ b ∈ c, a.date = b.date) →
      c.reverse.Sublist (sortPosts posts) := by
  refine ⟨?_, ?_, ?_⟩
  · exact (List.reverse_perm _).trans (List.mergeSort_perm posts _)
  · rw [sortPosts, List.pairwise_reverse]
    exact List.sorted_mergeSort
      (fun a b c => dateLe_trans a.date b.date c.date)
      (fun a b => dateLe_total a.date b.date) posts
  · intro c hsub htied
    rw [sortPosts]
    apply List.Sublist.reverse
    apply List.sublist_mergeSort
      (fun a b c => dateLe_trans a.date b.date c.date)
      (fun a b => dateLe_total a.date b.date)
    · exact List.pairwise_of_forall_mem_list fun a ha b hb =>
        by rw [htied a ha b hb]; exact dateLe_refl b.date
    · exact hsub

/-- C1 witness: the amended theorem applied to a concrete corpus of
three posts, two of which share a date. -/
theorem C1_sort_descending_ties_reversed_witness :
    (([⟨1, ⟨2024, 1, 1⟩⟩, ⟨2, ⟨2024, 1, 1⟩⟩] : List PostDoc).reverse).Sublist
      (sortPosts [⟨0, ⟨2023, 5, 5⟩⟩, ⟨1, ⟨2024, 1, 1⟩⟩, ⟨2, ⟨2024, 1, 1⟩⟩]) :=
  (C1_sort_descending_ties_reversed
      [⟨0, ⟨2023, 5, 5⟩⟩, ⟨1, ⟨2024, 1, 1⟩⟩, ⟨2, ⟨2024, 1, 1⟩⟩]).2.2
    [⟨1, ⟨2024, 1, 1⟩⟩, ⟨2, ⟨2024, 1, 1⟩⟩]
    (List.Sublist.cons _ (List.Sublist.refl _))
    (by decide)

/-! ## C2: output URL computation -/

/-- C2: for a Page a relative `settings.url` fails with the
configuration error and an absolute one yields the url relative to
`/` (joined under `out_dir` by `compile`); for a Post a relative
`settings.url` yields the `YYYY/MM/DD`-formatted date path joined with
the url, and an absolute one is used verbatim relative to `/`, the
date ignored for path purposes. -/
theorem C2_compile_urls (src urlStr : String) (d : Date) :
    ((parsePath urlStr).is_absolute = false →
        pageGetUrl src urlStr =
          Except.error ("Document " ++ src ++
            " needs an absolute path, \"" ++ urlStr ++ "\" supplied") ∧
        postGetUrl d urlStr =
          Except.ok ((parsePath d.strftimeYMD).join (parsePath urlStr))) ∧
    ((parsePath urlStr).is_absolute = true →
        pageGetUrl src urlStr =
          Except.ok (parsePath urlStr).relativeToRoot ∧
        postGetUrl d urlStr =
          Except.ok (parsePath urlStr).relativeToRoot) ∧
    (∀ out_dir u, docDir out_dir u = out_dir.join u) := by
  refine ⟨?_, ?_, fun _ _ => rfl⟩
  · intro h
    constructor
    · simp [pageGetUrl, h]
    · simp [postGetUrl, h]
  · intro h
    constructor
    · simp [pageGetUrl, h]
    · simp [postGetUrl, h]

/-- C2 witness: concrete Page and Post urls of both shapes. -/
theorem C2_compile_urls_witness :
    pageGetUrl "pages/about.rst" "/about" =
        Except.ok ⟨false, ["about"]⟩ ∧
      pageGetUrl "pages/bad.rst" "about" =
        Except.error
          "Document pages/bad.rst needs an absolute path, \"about\" supplied" ∧
      postGetUrl ⟨2024, 1, 10⟩ "first" =
        Except.ok ⟨false, ["2024", "01", "10", "first"]⟩ ∧
      postGetUrl ⟨2024, 1, 10⟩ "/legacy/post" =
        Except.ok ⟨false, ["legacy", "post"]⟩ := by
  have h1 := (C2_compile_urls "pages/about.rst" "/about" ⟨2024, 1, 10⟩).2.1
    (by decide)
  have h2 := (C2_compile_urls "pages/bad.rst" "about" ⟨2024, 1, 10⟩).1
    (by decide)
  have h3 := (C2_compile_urls "pages/first.rst" "first" ⟨2024, 1, 10⟩).1
    (by decide)
  have h4 := (C2_compile_urls "pages/legacy.rst" "/legacy/post"
    ⟨2024, 1, 10⟩).2.1 (by decide)
  refine ⟨?_, ?_, ?_, ?_⟩
  · rw [h1.1]; exact congrArg Except.ok (by decide)
  · rw [h2.1]; exact congrArg Except.error (by decide)
  · rw [h3.2]; exact congrArg Except.ok (by decide)
  · rw [h4.2]; exact congrArg Except.ok (by decide)

/-! ## C3: the preview cut point -/

theorem runVisit_ok (ns : List Node) :
    ∀ (st0 st : TranslatorState),
      runVisit st0 ns = Except.ok st →
      String.join st.body = String.join st0.body ++ nodesHTML ns ∧
      st.preview =
        (match beforeLastBreak ns with
         | some pre => some (String.join st0.body ++ nodesHTML pre)
         | none => st0.preview) := by
  induction ns with
  | nil =>
      intro st0 st h
      simp only [runVisit, Except.ok.injEq] at h
      subst h
      simp [nodesHTML, beforeLastBreak, String.join]
  | cons n rest ih =>
      intro st0 st h
      cases n with
      | content s =>
          simp only [runVisit, visitNode] at h
          obtain ⟨hbody, hprev⟩ := ih _ st h
          simp only [join_append_one] at hbody
          refine ⟨?_, ?_⟩
          · rw [hbody, nodesHTML_cons, String.append_assoc]
            rfl
          · rw [hprev]
            simp only [beforeLastBreak]
            cases hb : beforeLastBreak rest with
            | some pre =>
                simp only [nodesHTML_cons, nodeHTML, join_append_one,
                  String.append_assoc]
            | none =>
                simp
      | image uri w =>
          simp only [runVisit, visitNode] at h
          by_cases habs : (parsePath uri).is_absolute
          · simp [habs] at h
          · simp only [habs, Bool.false_eq_true, if_false, ite_false] at h
            obtain ⟨hbody, hprev⟩ := ih _ st h
            simp only [join_append_one] at hbody
            refine ⟨?_, ?_⟩
            · rw [hbody, nodesHTML_cons, String.append_assoc]
              rfl
            · rw [hprev]
              simp only [beforeLastBreak]
              cases hb : beforeLastBreak rest with
              | some pre =>
                  simp only [nodesHTML_cons, nodeHTML, join_append_one,
                    String.append_assoc]
              | none =>
                  simp
      | brk =>
          simp only [runVisit, visitNode] at h
          obtain ⟨hbody, hprev⟩ := ih _ st h
          refine ⟨?_, ?_⟩
          · rw [hbody, nodesHTML_cons]
            simp [nodeHTML]
          · rw [hprev]
            simp only [beforeLastBreak]
            cases hb : beforeLastBreak rest with
            | some pre =>
                simp [nodesHTML_cons, nodeHTML]
            | none =>
                simp [nodesHTML, String.join]

/-- C3 counterexample: on a tree with two break directives the
translator records the HTML up to the LAST break (`ab`), while the
claim demands the HTML up to the FIRST break (`a`). -/
theorem C3_counterexample :
    (translate [Node.content "a", Node.brk, Node.content "b", Node.brk,
        Node.content "c"]).map previewHTML = Except.ok "ab" ∧
    specFirstBreakPreview [Node.content "a", Node.brk, Node.content "b",
        Node.brk, Node.content "c"] = "a" ∧
    ("ab" : String) ≠ "a" := by
  refine ⟨?_, ?_, by decide⟩
  · rfl
  · decide

/-- C3 (amended): whenever translation succeeds, `previewHTML` is the
HTML accumulated up to the LAST break directive, provided that
accumulation is non-empty; with no break, or with an empty
accumulation (the preview property tests Python truthiness, so an
empty recorded preview falls back), it is the entire body HTML. -/
theorem C3_preview_last_break (ns : List Node) (st : TranslatorState)
    (h : translate ns = Except.ok st) :
    previewHTML st =
      (match beforeLastBreak ns with
       | some pre =>
           if nodesHTML pre = "" then nodesHTML ns else nodesHTML pre
       | none => nodesHTML ns) := by
  simp only [translate] at h
  obtain ⟨hbody, hprev⟩ := runVisit_ok ns initState st h
  have hinit : String.join (initState.body) = "" := rfl
  rw [hinit, String.empty_append] at hbody
  cases hb : beforeLastBreak ns with
  | none =>
      rw [hb] at hprev
      have hprev2 : st.preview = none := hprev
      show previewHTML st = nodesHTML ns
      simp only [previewHTML, hprev2]
      exact hbody
  | some pre =>
      rw [hb] at hprev
      have hprev2 : st.preview = some (nodesHTML pre) := by
        rw [hprev]; rw [show (match some pre with
          | some pre => some (String.join initState.body ++ nodesHTML pre)
          | none => initState.preview) =
            some (String.join initState.body ++ nodesHTML pre) from rfl,
          hinit, String.empty_append]
      show previewHTML st =
        if nodesHTML pre = "" then nodesHTML ns else nodesHTML pre
      simp only [previewHTML, hprev2]
      split
      · exact hbody
      · rfl

/-- C3 witness: the amended theorem applied to the concrete tree
`[content a, break, content b]`, whose translation succeeds with
preview `a`. -/
theorem C3_preview_last_break_witness :
    previewHTML (TranslatorState.mk ["a", "b"] [] (some "a")) =
      (match beforeLastBreak [Node.content "a", Node.brk,
          Node.content "b"] with
       | some pre =>
           if nodesHTML pre = "" then
             nodesHTML [Node.content "a", Node.brk, Node.content "b"]
           else nodesHTML pre
       | none =>
           nodesHTML [Node.content "a", Node.brk, Node.content "b"]) :=
  C3_preview_last_break [Node.content "a", Node.brk, Node.content "b"]
    (TranslatorState.mk ["a", "b"] [] (some "a")) rfl

/-! ## C8: absolute image URIs are fatal -/

theorem runVisit_error_of_absolute_image (ns : List Node) (uri : String)
    (w : Option String) (hmem : Node.image uri w ∈ ns)
    (habs : (parsePath uri).is_absolute = true) :
    ∀ st0, ∃ e, runVisit st0 ns = Except.error e := by
  induction ns with
  | nil => cases hmem
  | cons n rest ih =>
      intro st0
      rcases List.mem_cons.mp hmem with heq | hmem2
      · subst heq
        exact ⟨"Image " ++ uri ++
          " references an absolute path to an image, this is not allowed",
          by simp [runVisit, visitNode, habs]⟩
      · cases hv : visitNode st0 n with
        | error e => exact ⟨e, by simp [runVisit, hv]⟩
        | ok st1 =>
            obtain ⟨e, he⟩ := ih hmem2 st1
            exact ⟨e, by simp [runVisit, hv, he]⟩

/-- C8: any document tree holding an image node with an absolute URI is
rejected — translation fails with the security error, for every such
input. -/
theorem C8_absolute_image_rejected (ns : List Node) (uri : String)
    (w : Option String) (hmem : Node.image uri w ∈ ns)
    (habs : (parsePath uri).is_absolute = true) :
    ∃ e, translate ns = Except.error e :=
  runVisit_error_of_absolute_image ns uri w hmem habs initState

/-- C8 witness: a concrete tree referencing `/etc/passwd` as an image
fails to translate. -/
theorem C8_absolute_image_rejected_witness :
    ∃ e, translate [Node.image "/etc/passwd" none] = Except.error e :=
  C8_absolute_image_rejected [Node.image "/etc/passwd" none]
    "/etc/passwd" none (List.mem_singleton.mpr rfl) (by decide)

/-! ## C4: month-bucket index pages -/

/-- C4: evaluating the month-index rendering at a two-post January 2024
bucket with step 1 (the failing input): the pagination chunks are the
two singletons, and the file names, index names, `index_number = 0` and
`index_count = 1` match the claim, but BOTH emitted files carry
`index_posts` equal to the whole bucket rather than to their chunk —
the loop binds the chunk to `page` and then passes `posts`. -/
theorem C4_month_index_posts_bug :
    monthIndexPages 1 2024 1 [⟨1, ⟨2024, 1, 10⟩⟩, ⟨2, ⟨2024, 1, 5⟩⟩] =
      [("2024/01/index.html",
        { index_name := "Posts Jan 2024, Page 1"
          index_posts := [⟨1, ⟨2024, 1, 10⟩⟩, ⟨2, ⟨2024, 1, 5⟩⟩]
          index_number := 0
          index_count := 1 }),
       ("2024/01/index1.html",
        { index_name := "Posts Jan 2024, Page 2"
          index_posts := [⟨1, ⟨2024, 1, 10⟩⟩, ⟨2, ⟨2024, 1, 5⟩⟩]
          index_number := 0
          index_count := 1 })] ∧
    paginate 1 [PostDoc.mk 1 ⟨2024, 1, 10⟩, PostDoc.mk 2 ⟨2024, 1, 5⟩] =
      [[⟨1, ⟨2024, 1, 10⟩⟩], [⟨2, ⟨2024, 1, 5⟩⟩]] ∧
    ([⟨1, ⟨2024, 1, 10⟩⟩, ⟨2, ⟨2024, 1, 5⟩⟩] : List PostDoc) ≠
      [⟨1, ⟨2024, 1, 10⟩⟩] := by
  refine ⟨?_, ?_, by decide⟩
  · simp [monthIndexPages, paginate]
    decide
  · simp [paginate]

/-! ## C5: empty corpus -/

/-- C5 counterexample: with zero posts the assembler renders NO global
index page at all — the pagination of an empty list has no chunks, so
the index loop body never runs — refuting the claimed single empty
index page (the no-month-buckets half of the claim does hold). -/
theorem C5_counterexample :
    globalIndexPages 10 ([] : List PostDoc) = [] ∧
    (globalIndexPages 10 ([] : List PostDoc)).length ≠ 1 ∧
    postsByMonth (sortPosts []) = [] := by
  refine ⟨?_, ?_, ?_⟩
  · simp [globalIndexPages, paginate]
  · simp [globalIndexPages, paginate]
  · simp [postsByMonth, sortPosts, groupRuns]

/-- C5 (amended): with zero posts the assembler renders no global index
page whatsoever — for every configured page size — and produces no
month buckets. -/
theorem C5_zero_posts (step : Nat) :
    globalIndexPages step [] = [] ∧ postsByMonth (sortPosts []) = [] := by
  constructor
  · simp [globalIndexPages, paginate]
  · simp [postsByMonth, sortPosts, groupRuns]

/-! ## C6: template choice of the deferred render -/

/-- C6 counterexample: with distinct configured template names, the
deferred render of a Post resolves the `page` template, not the `post`
template. -/
theorem C6_counterexample :
    compileTemplate CompilerKind.post
        ⟨"page.html", "post.html", "index.html"⟩ = "page.html" ∧
      (Templates.mk "page.html" "post.html" "index.html").post ≠
        "page.html" :=
  ⟨rfl, by decide⟩

/-- C6 (amended): the deferred-render closure uses the `page` template
for Pages AND for Posts — `PostCompiler.get_template` also looks up
`templates["page"]`. -/
theorem C6_template_choice (t : Templates) :
    compileTemplate CompilerKind.page t = t.page ∧
    compileTemplate CompilerKind.post t = t.page :=
  ⟨rfl, rfl⟩

/-! ## C7: the date option of the settings directive -/

/-- C7 counterexample: a settings directive supplying a title (and a
url) but omitting the date option fails — `run` applies the `date`
converter to `None`, which raises — refuting the claimed optionality of
the date. -/
theorem C7_counterexample :
    settingsRun ⟨some "About", none, some "/about", none⟩ =
      Except.error "argument required but not supplied" := rfl

/-- C7 (amended): the date option is required: every settings directive
omitting it fails with the argument-required error, whatever title,
url and tags are supplied — so no dateless document (in particular no
dateless Page) parses. -/
theorem C7_date_required (t : String) (u tg : Option String) :
    settingsRun ⟨some t, none, u, tg⟩ =
      Except.error "argument required but not supplied" := rfl

/-! ## C9: HMAC gate of the refresh endpoint -/

/-- C9: a refresh request with a missing signature header, or whose
body does not authenticate against the supplied header under the shared
secret (for any HMAC primitive), is rejected with an authentication
status (403 or 401) and enqueues no task. -/
theorem C9_hmac_rejects (mac : String → String → String) (secret : String)
    (req : HttpRequest)
    (h : req.sigHeader = none ∨
      ∃ s, req.sigHeader = some s ∧ s ≠ "sha256=" ++ mac secret req.body) :
    ((requestRefresh mac secret req).1.status = 403 ∨
      (requestRefresh mac secret req).1.status = 401) ∧
    (requestRefresh mac secret req).2 = [] := by
  rcases h with h | ⟨s, hs, hne⟩
  · simp [requestRefresh, validate_hmac, h]
  · have hif : ("sha256=" ++ mac secret req.body = s) = False :=
      eq_false fun hc => hne hc.symm
    simp [requestRefresh, validate_hmac, hs, hif]

/-- C9 witness: a tampered body with an unmodified signature header,
under a concrete stand-in mac, is rejected without queuing. -/
theorem C9_hmac_rejects_witness :
    (((requestRefresh (fun k b => k ++ b) "sec"
        ⟨"tampered", some "sha256=secbody"⟩).1.status = 403 ∨
      (requestRefresh (fun k b => k ++ b) "sec"
        ⟨"tampered", some "sha256=secbody"⟩).1.status = 401) ∧
     (requestRefresh (fun k b => k ++ b) "sec"
        ⟨"tampered", some "sha256=secbody"⟩).2 = []) :=
  C9_hmac_rejects (fun k b => k ++ b) "sec"
    ⟨"tampered", some "sha256=secbody"⟩
    (Or.inr ⟨"sha256=secbody", rfl, by decide⟩)

/-! ## C10: Pygments configuration scope -/

/-- C10: the code-block directive renders only inside an active
configure scope — with the unconfigured state every run fails with the
not-configured error before highlighting — and leaving a configure
scope always resets the state to unconfigured, whether the body
succeeded or raised, while propagating the body result. -/
theorem C10_pygments_scope :
    (∀ (knownLexers : List String) (heightLimit : Bool)
        (arguments content : List String),
        pygmentsRun knownLexers none heightLimit arguments content =
          Except.error "PygmentsDirective is not configured") ∧
    (∀ (ps : PygmentsSettings)
        (body : PygState → Except String (List String) × PygState)
        (st : PygState),
        (configure ps body st).2 = none ∧
        (configure ps body st).1 = (body (some ⟨ps.style, "inline"⟩)).1) :=
  ⟨fun _ _ _ _ => rfl, fun _ _ _ => ⟨rfl, rfl⟩⟩

end RstBlog
